import Mathlib

/-!
Shallow embedding of the BuildConnect backend (`src/index.js` and the two
unnamed near-duplicate variants `src/unnamed/part_000`, `src/unnamed/part_001`).

The server is an Express app forwarding requests to Firestore, Razorpay and a
mail transport.  We embed each route handler as a pure Lean function over an
explicit database state, with the outcomes of the external capabilities
(identity lookup, email send, payment-order creation, document add) passed in
as oracle arguments, and with the list of capability calls the handler issues
returned as an explicit trace.

JavaScript values reaching the handlers come from `express.json()` (JSON
bodies) or URL path segments.  A JavaScript number is an IEEE binary64
double; finite doubles are carried as their exact rational value, and the
non-finite doubles get their own constructors: `JSON.parse` yields
`Infinity` for an overflowing literal such as `1e999`, and `Number(...)`
coercion can yield `NaN`.  Where the arithmetic itself matters — the paise
computation `Math.round(amount * 100)` of the create-order route — the
double multiplication is modelled faithfully by `roundF64`, rounding the
exact product to the nearest binary64 value (ties to even, overflow to
infinity) before `Math.round` is applied.
-/

/-- A JavaScript value as it can appear in a parsed JSON request body,
plus `undefined` (absent field) and the non-finite numbers: `nan` (from
`Number` coercion), and `inf` / `negInf`, which `JSON.parse` delivers for
number literals overflowing the double range (`1e999`, `-1e999`).  A finite
number carries its exact rational value. -/
inductive JSVal where
  | undefined : JSVal
  | null : JSVal
  | nan : JSVal
  | inf : JSVal
  | negInf : JSVal
  | bool : Bool → JSVal
  | num : ℚ → JSVal
  | str : String → JSVal
  | arr : List JSVal → JSVal
  | obj : List (String × JSVal) → JSVal
deriving Repr

/-- JavaScript truthiness: `undefined`, `null`, `NaN`, `false`, `0` and `""`
are falsy; every other value (the infinities, any array, any object) is
truthy. -/
def JSVal.truthy : JSVal → Bool
  | .undefined => false
  | .null => false
  | .nan => false
  | .inf => true
  | .negInf => true
  | .bool b => b
  | .num q => decide (q ≠ 0)
  | .str s => decide (s ≠ "")
  | .arr _ => true
  | .obj _ => true

/-- Property lookup on an object's field list; later bindings shadow earlier
ones, as in JavaScript, and a missing key reads as `undefined`. -/
def objGet (fields : List (String × JSVal)) (key : String) : JSVal :=
  match fields.reverse.lookup key with
  | some v => v
  | none => JSVal.undefined

/-- The JavaScript `.length` read used by the validation
`!cartItems.length`: arrays and strings expose their length, objects expose a
`length` field if any, and every other value yields `undefined`. -/
def JSVal.lengthProp : JSVal → JSVal
  | .arr xs => .num xs.length
  | .str s => .num s.length
  | .obj fs => objGet fs "length"
  | _ => .undefined

/-- Strict equality of a value against a string literal
(`v === "Material"`-style tests and Firestore `'=='` against a URL param):
true exactly for the equal string. -/
def JSVal.eqStr : JSVal → String → Bool
  | .str t, s => t = s
  | _, _ => false

/-- A Booking document, mirroring the object literal written by
`db.collection('bookings').add({...})`.  `bookingDate` is stored in the
source as `new Date().toISOString()`; ISO-8601 strings of valid dates compare
in the same order as their underlying timestamps, so it is modelled as the
millisecond timestamp. -/
structure BookingDoc where
  clientId : JSVal
  items : JSVal
  totalAmount : JSVal
  status : String
  bookingDate : Nat
  paymentDetails : JSVal
  siteLocation : JSVal
deriving Repr

/-- The Firestore state touched by the routes under study: the `bookings`
collection (typed documents) and the three listing collections
(schemaless documents).  Each collection is the list of its documents in
insertion order, keyed by document id. -/
structure Database where
  bookings : List (String × BookingDoc)
  equipment : List (String × JSVal)
  materials : List (String × JSVal)
  contractors : List (String × JSVal)
deriving Repr

/-- An IEEE binary64 value as produced by JavaScript number arithmetic: a
finite double carried as its exact rational value, an infinity, or `NaN`. -/
inductive F64 where
  | finite : ℚ → F64
  | inf : F64
  | negInf : F64
  | nan : F64
deriving Repr, DecidableEq, BEq

/-- JavaScript `Math.round` on a finite value: the closest integer, halves
rounded toward positive infinity (the ECMAScript definition is exact — no
intermediate double addition is observable). -/
def jsRound (q : ℚ) : ℤ := ⌊q + 1 / 2⌋

/-- Round-to-nearest integer, ties to even — the rounding the IEEE default
mode applies to a scaled significand. -/
def roundNearestEvenQ (x : ℚ) : ℤ :=
  if x - ⌊x⌋ < 1 / 2 then ⌊x⌋
  else if 1 / 2 < x - ⌊x⌋ then ⌊x⌋ + 1
  else if ⌊x⌋ % 2 = 0 then ⌊x⌋ else ⌊x⌋ + 1

/-- Round an exact rational to the nearest IEEE binary64 value
(round-to-nearest, ties-to-even): split off the sign, take the base-2
exponent `e` of the magnitude (clamped below at -1022, where subnormals
begin), round the significand to 53 bits, and overflow to infinity when the
rounded magnitude reaches `2^1024`.  The significand carry case `m = 2^53`
needs no special treatment because `2^53 * 2^(e-52) = 2^(e+1)` is itself
the correctly rounded value. -/
def roundF64 (q : ℚ) : F64 :=
  if q = 0 then .finite 0
  else
    let a := |q|
    let e := max (Int.log 2 a) (-1022)
    let m := roundNearestEvenQ (a * 2 ^ (52 - e))
    let v := (m : ℚ) * 2 ^ (e - 52)
    if (2 : ℚ) ^ (1024 : ℤ) ≤ v then (if 0 < q then .inf else .negInf)
    else .finite (if 0 < q then v else -v)

/-- One outbound capability call issued by a handler.  The payment call
carries the paise amount as the double value the program computes. -/
inductive CapCall where
  | dbAdd : String → CapCall
  | dbUpdate : String → CapCall
  | dbDelete : String → CapCall
  | dbQuery : String → CapCall
  | confirmationEmail : CapCall
  | authGetUser : CapCall
  | emailSend : CapCall
  | payCreate : F64 → String → String → CapCall
deriving Repr, DecidableEq, BEq

/-- The collection a capability call touches, when it is a database call. -/
def CapCall.dbCollection : CapCall → Option String
  | .dbAdd c => some c
  | .dbUpdate c => some c
  | .dbDelete c => some c
  | .dbQuery c => some c
  | _ => none

/-- An HTTP response: status code and JSON body. -/
structure Resp where
  status : Nat
  body : JSVal
deriving Repr

/-- Result of running a handler: the response, the database state after the
request, and the trace of capability calls issued. -/
structure HResult where
  resp : Resp
  db : Database
  calls : List CapCall
deriving Repr

/-- The destructured body of `POST /api/create-booking`:
`const { userId, cartItems, totalPrice, paymentDetails, siteLocation } = req.body`.
A field absent from the JSON body destructures to `undefined`. -/
structure BookingReq where
  userId : JSVal
  cartItems : JSVal
  totalPrice : JSVal
  paymentDetails : JSVal
  siteLocation : JSVal
deriving Repr

/-- The validation of `POST /api/create-booking`
(`src/index.js` line 60): `!userId || !cartItems || !cartItems.length ||
!siteLocation` — the request is rejected when this is true. -/
def bookingInvalid (req : BookingReq) : Bool :=
  !req.userId.truthy || !req.cartItems.truthy ||
    !req.cartItems.lengthProp.truthy || !req.siteLocation.truthy

/-- The Booking document `POST /api/create-booking` persists
(`src/index.js` lines 63-71): status is the literal `'Confirmed'`,
`bookingDate` the current time, and `paymentDetails` defaulted by
`paymentDetails || {}`. -/
def bookingDocOf (req : BookingReq) (now : Nat) : BookingDoc where
  clientId := req.userId
  items := req.cartItems
  totalAmount := req.totalPrice
  status := "Confirmed"
  bookingDate := now
  paymentDetails := if req.paymentDetails.truthy then req.paymentDetails else .obj []
  siteLocation := req.siteLocation

/-- The capability calls of the best-effort confirmation-email step
(`src/index.js` lines 73-113): the step is entered once; the identity lookup
`admin.auth().getUser(userId)` is attempted, and only if it succeeds is
`transporter.sendMail` attempted; any failure is caught and logged. -/
def emailStepCalls (getUserEmail : Except String String)
    (sendMailRes : Except String Unit) : List CapCall :=
  match getUserEmail with
  | .error _ => [.confirmationEmail, .authGetUser]
  | .ok _ =>
    match sendMailRes with
    | .ok _ => [.confirmationEmail, .authGetUser, .emailSend]
    | .error _ => [.confirmationEmail, .authGetUser, .emailSend]

/-- Handler of `POST /api/create-booking` (`src/index.js` lines 57-117; the
variant `src/unnamed/part_000` lines 193-222 is identical up to logging, and
`src/unnamed/part_001` lines 31-52 omits the email step).  Oracles:
`freshId` is the document id Firestore generates for `.add`, `now` the
current time, `dbAddOk` whether the `.add` succeeds (a failure is caught by
the outer `try` and produces a 500), `getUserEmail` and `sendMailRes` the
outcomes of the identity lookup and the mail send. -/
def createBooking (db : Database) (freshId : String) (now : Nat)
    (dbAddOk : Bool) (getUserEmail : Except String String)
    (sendMailRes : Except String Unit) (req : BookingReq) : HResult :=
  if bookingInvalid req then
    ⟨⟨400, .obj [("error", .str "Missing booking information.")]⟩, db, []⟩
  else if !dbAddOk then
    ⟨⟨500, .obj [("error", .str "Failed to create booking.")]⟩, db, [.dbAdd "bookings"]⟩
  else
    let doc := bookingDocOf req now
    let db' : Database := { db with bookings := db.bookings ++ [(freshId, doc)] }
    ⟨⟨201, .obj [("message", .str "Booking created successfully!"),
        ("bookingId", .str freshId)]⟩,
      db', .dbAdd "bookings" :: emailStepCalls getUserEmail sendMailRes⟩

/-- Firestore `update({ status: 'Cancelled' })` on the `bookings` collection:
sets the `status` of the document with the given id, leaving every other
field intact, and fails (`none`) when no such document exists — Firestore's
`update` rejects on a missing document. -/
def cancelInBookings : List (String × BookingDoc) → String → Option (List (String × BookingDoc))
  | [], _ => none
  | (i, b) :: rest, id =>
    if i = id then some ((i, { b with status := "Cancelled" }) :: rest)
    else (cancelInBookings rest id).map (fun tail => (i, b) :: tail)

/-- Handler of `PUT /api/bookings/:bookingId/cancel` (`src/index.js` lines
138-148, identical in both variants): unconditionally updates the document's
`status` to `'Cancelled'`; a rejected update (missing document) is caught and
answered with 500. -/
def cancelBooking (db : Database) (bookingId : String) : HResult :=
  match cancelInBookings db.bookings bookingId with
  | some bs =>
    ⟨⟨200, .obj [("message", .str "Booking cancelled successfully!")]⟩,
      { db with bookings := bs }, [.dbUpdate "bookings"]⟩
  | none =>
    ⟨⟨500, .obj [("error", .str "Failed to cancel booking.")]⟩,
      db, [.dbUpdate "bookings"]⟩

/-- The descending-by-`bookingDate` order used by
`bookingsList.sort((a, b) => new Date(b.bookingDate) - new Date(a.bookingDate))`:
an element precedes another when its date is at least as late. -/
def newestFirst (a b : String × BookingDoc) : Prop :=
  b.2.bookingDate ≤ a.2.bookingDate

instance : DecidableRel newestFirst := fun a b =>
  inferInstanceAs (Decidable (b.2.bookingDate ≤ a.2.bookingDate))

instance : IsTotal (String × BookingDoc) newestFirst :=
  ⟨fun a b => by unfold newestFirst; exact Nat.le_total _ _⟩

instance : IsTrans (String × BookingDoc) newestFirst :=
  ⟨fun _ _ _ hab hbc => by unfold newestFirst at *; exact Nat.le_trans hbc hab⟩

/-- Result of `GET /api/my-bookings/:userId`: the status code and the booking
documents returned (each response item is `{ id: doc.id, ...doc.data() }`,
kept here as the id-document pair; JSON serialisation is elided). -/
structure MyBookingsResult where
  status : Nat
  bookings : List (String × BookingDoc)
deriving Repr

/-- Handler of `GET /api/my-bookings/:userId` (`src/index.js` lines 120-135,
identical in both variants): queries `bookings` where `clientId == userId`
(the URL parameter is a string, and Firestore equality matches only a
string-typed equal value), returns `[]` on an empty snapshot, otherwise the
matches sorted newest first.  `Array.prototype.sort` with the consistent
comparator is modelled by insertion sort, which produces a sorted permutation
as any compliant implementation must. -/
def myBookings (db : Database) (userId : String) : MyBookingsResult :=
  let found := db.bookings.filter (fun p => p.2.clientId.eqStr userId)
  if found.isEmpty then ⟨200, []⟩
  else ⟨200, List.insertionSort newestFirst found⟩

/-- `typeof amount === 'number'`: the finite rationals, the infinities and
`NaN` are the values of JavaScript type `number`. -/
def JSVal.isNumberType : JSVal → Bool
  | .num _ => true
  | .nan => true
  | .inf => true
  | .negInf => true
  | _ => false

/-- The comparison `amount < 1` as JavaScript evaluates it on a value of
type `number`: the numeric comparison on finite values, true on `-Infinity`,
false on `Infinity`, and false on `NaN` (all `NaN` comparisons are
false). -/
def JSVal.ltOne : JSVal → Bool
  | .num q => decide (q < 1)
  | .negInf => true
  | _ => false

/-- `isNaN(amount)` on a value of type `number`. -/
def JSVal.isNaNVal : JSVal → Bool
  | .nan => true
  | _ => false

/-- The validation of `POST /api/create-order`
(`src/unnamed/part_000` line 59, identically `src/unnamed/part_001` line 85):
`typeof amount !== 'number' || amount < 1 || isNaN(amount)` — the request is
rejected when this is true. -/
def orderAmountInvalid (amount : JSVal) : Bool :=
  !amount.isNumberType || amount.ltOne || amount.isNaNVal

/-- `Math.round(amount * 100)` as the program computes it on a number-typed
amount: the exact product of the (double) amount with the exactly
representable 100 is rounded once to a double — the IEEE multiplication —
and `Math.round` is applied to the result; a rounded finite value is an
integer of magnitude below `2^53` or an already-integral double, so no
further rounding occurs.  Infinities and `NaN` propagate as in JavaScript
(`Infinity * 100 = Infinity`, `Math.round(Infinity) = Infinity`). -/
def amountInPaise : JSVal → F64
  | .num q =>
    match roundF64 (q * 100) with
    | .finite v => .finite (jsRound v : ℚ)
    | r => r
  | .inf => .inf
  | .negInf => .negInf
  | _ => .nan

/-- A Razorpay SDK error: its HTTP `statusCode` (absent or zero is falsy, so
`razorpayError.statusCode || 500` falls back to 500) and its `error`
payload. -/
structure RzpError where
  statusCode : Option Nat
  error : JSVal
deriving Repr

/-- Result of `POST /api/create-order`: the response and the capability-call
trace (this route touches no database state). -/
structure OrderResult where
  resp : Resp
  calls : List CapCall
deriving Repr

/-- Handler of `POST /api/create-order` in its final form
(`src/unnamed/part_000` lines 50-102): validate the amount, convert with
`Math.round(amount * 100)`, call `razorpay.orders.create` with the paise
amount, currency `"INR"` and a timestamped receipt; on an SDK error respond
with `razorpayError.statusCode || 500` and the error payload; on success
return the order unmodified (a falsy order answers 500).  `payResult` is the
oracle for the Razorpay call, `nowMs` the timestamp used for the receipt. -/
def createOrder (payResult : Except RzpError JSVal) (nowMs : Nat)
    (amount : JSVal) : OrderResult :=
  if orderAmountInvalid amount then
    ⟨⟨400, .obj [("error", .str "Invalid amount for payment.")]⟩, []⟩
  else
    let paise := amountInPaise amount
    let receipt := "receipt_order_" ++ toString nowMs
    let call := CapCall.payCreate paise "INR" receipt
    match payResult with
    | .error e =>
      let st := match e.statusCode with
        | some c => if c ≠ 0 then c else 500
        | none => 500
      ⟨⟨st, e.error⟩, [call]⟩
    | .ok order =>
      if order.truthy then ⟨⟨200, order⟩, [call]⟩
      else ⟨⟨500, .str "Error creating order"⟩, [call]⟩

/-- The collection whitelist of the listing-mutation routes:
`['equipment', 'materials', 'contractors']`. -/
def validCollections : List String := ["equipment", "materials", "contractors"]

/-- Read one of the three listing collections by name.  Only names in
`validCollections` are ever dispatched here by the handlers; any other name
reads as an empty collection. -/
def Database.listColl (db : Database) : String → List (String × JSVal)
  | "equipment" => db.equipment
  | "materials" => db.materials
  | "contractors" => db.contractors
  | _ => []

/-- Replace one of the three listing collections by name; any other name
leaves the database unchanged (never dispatched by the handlers). -/
def Database.setListColl (db : Database) (c : String)
    (docs : List (String × JSVal)) : Database :=
  match c with
  | "equipment" => { db with equipment := docs }
  | "materials" => { db with materials := docs }
  | "contractors" => { db with contractors := docs }
  | _ => db

/-- Firestore `update(patch)` field merging on a document: patch keys
overwrite, other fields persist. -/
def mergeFields (fields patch : List (String × JSVal)) : List (String × JSVal) :=
  fields.filter (fun kv => !(patch.map Prod.fst).contains kv.1) ++ patch

/-- Apply `update(patch)` to a document (documents are objects). -/
def applyPatch (doc : JSVal) (patch : List (String × JSVal)) : JSVal :=
  match doc with
  | .obj fs => .obj (mergeFields fs patch)
  | v => v

/-- Firestore `doc(id).update(patch)` within a collection: patches the
document with the given id, failing (`none`) when it is absent. -/
def updateDocIn : List (String × JSVal) → String → List (String × JSVal) →
    Option (List (String × JSVal))
  | [], _, _ => none
  | (i, d) :: rest, id, patch =>
    if i = id then some ((i, applyPatch d patch) :: rest)
    else (updateDocIn rest id patch).map (fun tail => (i, d) :: tail)

/-- Handler of `PUT /api/listing/:collectionName/:listingId`
(`src/index.js` lines 166-177, identical in both variants): only the three
whitelisted collections are touched; otherwise 400 with no database call.  A
rejected update (missing document) is caught and answered with 500. -/
def updateListing (db : Database) (collectionName listingId : String)
    (patch : List (String × JSVal)) : HResult :=
  if validCollections.contains collectionName then
    match updateDocIn (db.listColl collectionName) listingId patch with
    | some docs =>
      ⟨⟨200, .obj [("message", .str "Listing updated successfully!")]⟩,
        db.setListColl collectionName docs, [.dbUpdate collectionName]⟩
    | none =>
      ⟨⟨500, .obj [("error", .str "Failed to update listing.")]⟩,
        db, [.dbUpdate collectionName]⟩
  else
    ⟨⟨400, .obj [("error", .str "Invalid collection specified.")]⟩, db, []⟩

/-- Firestore `doc(id).delete()` within a collection: removes the document if
present and succeeds either way (`delete` on a missing document is a no-op
success). -/
def deleteDocIn (docs : List (String × JSVal)) (id : String) :
    List (String × JSVal) :=
  docs.filter (fun kv => !(kv.1 = id : Bool))

/-- Handler of `DELETE /api/listing/:collectionName/:listingId`
(`src/index.js` lines 180-190, identical in both variants): only the three
whitelisted collections are touched; otherwise 400 with no database call. -/
def deleteListing (db : Database) (collectionName listingId : String) : HResult :=
  if validCollections.contains collectionName then
    ⟨⟨200, .obj [("message", .str "Listing removed successfully!")]⟩,
      db.setListColl collectionName (deleteDocIn (db.listColl collectionName) listingId),
      [.dbDelete collectionName]⟩
  else
    ⟨⟨400, .obj [("error", .str "Invalid collection specified.")]⟩, db, []⟩

/-- Decimal-literal parsing for string-to-number coercion: an optional
fractional part over digits, empty string coercing to 0.  (Signs, exponents
and whitespace trimming of full JavaScript semantics are not reached by any
claim.) -/
def parseNumber (s : String) : JSVal :=
  if s = "" then .num 0
  else
    match s.splitOn "." with
    | [w] =>
      match w.toNat? with
      | some n => .num n
      | none => .nan
    | [w, f] =>
      match w.toNat?, f.toNat? with
      | some n, some m => .num ((n : ℚ) + (m : ℚ) / ((10 : ℚ) ^ f.length))
      | _, _ => .nan
    | _ => .nan

/-- The JavaScript `Number(...)` coercion applied to `price` by the
add-listing handler.  Arrays and objects coerce through `toString`, which no
claim exercises; they are mapped to `NaN` here. -/
def jsToNumber : JSVal → JSVal
  | .undefined => .nan
  | .null => .num 0
  | .nan => .nan
  | .inf => .inf
  | .negInf => .negInf
  | .bool b => .num (if b then 1 else 0)
  | .num q => .num q
  | .str s => parseNumber s
  | .arr _ => .nan
  | .obj _ => .nan

/-- The destructured body of `POST /api/add-listing` (`src/index.js` line
210). -/
structure ListingReq where
  listingType : JSVal
  name : JSVal
  description : JSVal
  price : JSVal
  imageUrl : JSVal
  location : JSVal
  merchantId : JSVal
  rateType : JSVal
  specialization : JSVal
  unit : JSVal
deriving Repr

/-- The validation of `POST /api/add-listing` (`src/index.js` lines 211-213):
`!listingType || !name || !price || !merchantId` — the request is rejected
when this is true, so any falsy required field (including `price: 0` or
`name: ""`) rejects. -/
def listingInvalid (req : ListingReq) : Bool :=
  !req.listingType.truthy || !req.name.truthy ||
    !req.price.truthy || !req.merchantId.truthy

/-- The document the Material branch persists (`src/index.js` line 221):
`{ name, specs: description, pricePerUnit: Number(price), imageUrl,
merchantId, unit, stockQuantity: 100 }`. -/
def materialDataOf (req : ListingReq) : JSVal :=
  .obj [("name", req.name), ("specs", req.description),
    ("pricePerUnit", jsToNumber req.price), ("imageUrl", req.imageUrl),
    ("merchantId", req.merchantId), ("unit", req.unit),
    ("stockQuantity", .num 100)]

/-- The document the Equipment branch persists (`src/index.js` line 218). -/
def equipmentDataOf (req : ListingReq) : JSVal :=
  .obj [("name", req.name), ("description", req.description),
    ("dailyRentalPrice", jsToNumber req.price), ("imageUrl", req.imageUrl),
    ("location", req.location), ("merchantId", req.merchantId),
    ("category", .str "General"), ("availabilityStatus", .str "Available")]

/-- The document the Contractor branch persists (`src/index.js` line 224). -/
def contractorDataOf (req : ListingReq) : JSVal :=
  .obj [("name", req.name), ("bio", req.description),
    ("rate", jsToNumber req.price), ("profileImageUrl", req.imageUrl),
    ("location", req.location), ("merchantId", req.merchantId),
    ("rateType", req.rateType), ("specialization", req.specialization)]

/-- Handler of `POST /api/add-listing` (`src/index.js` lines 208-231; the
variants differ only in the Equipment branch's field names): validate the
four required fields, branch on `listingType` by strict string comparison,
persist the kind-specific document in the kind's collection, respond 201
with the generated id; an unrecognised `listingType` answers 400 with no
database call.  `freshId` is the id Firestore generates for `.add`. -/
def addListing (db : Database) (freshId : String) (req : ListingReq) : HResult :=
  if listingInvalid req then
    ⟨⟨400, .obj [("error", .str "Missing required fields.")]⟩, db, []⟩
  else if req.listingType.eqStr "Equipment" then
    ⟨⟨201, .obj [("message", .str "Listing created successfully!"),
        ("id", .str freshId)]⟩,
      { db with equipment := db.equipment ++ [(freshId, equipmentDataOf req)] },
      [.dbAdd "equipment"]⟩
  else if req.listingType.eqStr "Material" then
    ⟨⟨201, .obj [("message", .str "Listing created successfully!"),
        ("id", .str freshId)]⟩,
      { db with materials := db.materials ++ [(freshId, materialDataOf req)] },
      [.dbAdd "materials"]⟩
  else if req.listingType.eqStr "Contractor" then
    ⟨⟨201, .obj [("message", .str "Listing created successfully!"),
        ("id", .str freshId)]⟩,
      { db with contractors := db.contractors ++ [(freshId, contractorDataOf req)] },
      [.dbAdd "contractors"]⟩
  else
    ⟨⟨400, .obj [("error", .str "Invalid listing type.")]⟩, db, []⟩

/-- The response-item shaping `{ id: doc.id, ...doc.data() }` of the read
endpoints. -/
def withIdField (id : String) (doc : JSVal) : JSVal :=
  match doc with
  | .obj fs => .obj (("id", .str id) :: fs)
  | v => v

/-- Handler of `GET /api/materials` (`src/index.js` lines 252-258, identical
in both variants): every document of the `materials` collection, shaped with
its id. -/
def getMaterials (db : Database) : Resp :=
  ⟨200, .arr (db.materials.map (fun p => withIdField p.1 p.2))⟩


/-- Field read on an object value; any other value reads as `undefined`. -/
def JSVal.get : JSVal → String → JSVal
  | .obj fs, k => objGet fs k
  | _, _ => .undefined

/-- A concrete well-formed create-booking request, used to instantiate the
universally quantified theorems. -/
def exBookingReq : BookingReq where
  userId := .str "user1"
  cartItems := .arr [.obj [("name", .str "Cement bag"), ("quantity", .num 2)]]
  totalPrice := .num 5000
  paymentDetails := .undefined
  siteLocation := .obj [("address", .str "12 Main Rd"), ("area", .str "North"),
    ("city", .str "Pune"), ("pincode", .str "411001"), ("contactNo", .str "9999")]

/-- A concrete booking document dated 100. -/
def exBooking1 : BookingDoc where
  clientId := .str "user1"
  items := .arr []
  totalAmount := .num 10
  status := "Confirmed"
  bookingDate := 100
  paymentDetails := .obj []
  siteLocation := .obj []

/-- A concrete booking document dated 200, owned by another client. -/
def exBooking2 : BookingDoc where
  clientId := .str "user2"
  items := .arr []
  totalAmount := .num 20
  status := "Confirmed"
  bookingDate := 200
  paymentDetails := .obj []
  siteLocation := .obj []

/-- A concrete booking document dated 300, same client as `exBooking1`. -/
def exBooking3 : BookingDoc where
  clientId := .str "user1"
  items := .arr []
  totalAmount := .num 30
  status := "Cancelled"
  bookingDate := 300
  paymentDetails := .obj []
  siteLocation := .obj []

/-- The exact value of the IEEE double nearest to 10.005 — the number
`JSON.parse` delivers for the literal `10.005`
(`(10.005).as_integer_ratio()` gives this fraction). -/
def double10005 : ℚ := 5632314283980227 / 2 ^ 49

/-- The exact value of the IEEE double nearest to 1.015 — the number
`JSON.parse` delivers for the literal `1.015`. -/
def double1015 : ℚ := 4571153621781053 / 2 ^ 52

/-- The exact value of the IEEE double nearest to 1e308 (an integer; the
double is `m * 2^971` for a 53-bit `m`). -/
def double1e308 : ℚ := 100000000000000001097906362944045541740492309677311846336810682903157585404911491537163328978494688899061249669721172515611590283743140088328307009198146046031271664502933027185697489699588559043338384466165001178426897626212945177628091195786707458122783970171784415105291802893207873272974885715430223118336

/-- A concrete database state used to instantiate the theorems. -/
def exDb : Database where
  bookings := [("b1", exBooking1), ("b2", exBooking2), ("b3", exBooking3)]
  equipment := [("e1", .obj [("name", .str "Mixer"), ("merchantId", .str "m1")])]
  materials := [("m1", .obj [("name", .str "Sand"), ("merchantId", .str "m1")])]
  contractors := []

/-- C1: for every valid booking-creation request (the handler's own
validation passing) and every outcome of the identity lookup and of the mail
send, `POST /api/create-booking` persists the Booking with
`status = "Confirmed"`, enters the best-effort confirmation-email step
exactly once (attempting at most one send), and responds 201 carrying the
generated booking id; the response and the stored state are pinned to values
independent of the two email oracles, so an email failure neither changes
the response nor rolls the booking back. -/
theorem createBooking_valid_201_email_once (db : Database) (freshId : String)
    (now : Nat) (gu : Except String String) (sm : Except String Unit)
    (req : BookingReq) (hvalid : bookingInvalid req = false) :
    (createBooking db freshId now true gu sm req).resp =
      ⟨201, .obj [("message", .str "Booking created successfully!"),
        ("bookingId", .str freshId)]⟩ ∧
    (createBooking db freshId now true gu sm req).db.bookings =
      db.bookings ++ [(freshId, bookingDocOf req now)] ∧
    (bookingDocOf req now).status = "Confirmed" ∧
    ((createBooking db freshId now true gu sm req).calls.count
      CapCall.confirmationEmail) = 1 ∧
    ((createBooking db freshId now true gu sm req).calls.count
      CapCall.emailSend) ≤ 1 := by
  cases gu <;> cases sm <;>
    refine ⟨?_, ?_, rfl, ?_, ?_⟩ <;>
    simp only [createBooking, hvalid, Bool.false_eq_true, if_false,
      Bool.not_true, emailStepCalls] <;>
    first
    | rfl
    | decide

/-- C1 witness: the theorem instantiated at a concrete database, request and
failing email oracles. -/
theorem createBooking_valid_201_email_once_witness :
    (createBooking exDb "bk9" 400 true (.error "no user") (.error "down")
      exBookingReq).resp.status = 201 ∧
    ((createBooking exDb "bk9" 400 true (.error "no user") (.error "down")
      exBookingReq).calls.count CapCall.confirmationEmail) = 1 := by
  have h := createBooking_valid_201_email_once exDb "bk9" 400
    (.error "no user") (.error "down") exBookingReq (by decide)
  exact ⟨by rw [h.1], h.2.2.2.1⟩

/-- C2: a booking-creation request with `userId` missing, `cartItems`
missing or empty, or `siteLocation` missing is answered 400, the database is
unchanged, and no capability at all is called. -/
theorem createBooking_missing_field_400_no_effects (db : Database)
    (freshId : String) (now : Nat) (dbAddOk : Bool)
    (gu : Except String String) (sm : Except String Unit) (req : BookingReq)
    (h : req.userId = .undefined ∨ req.cartItems = .undefined ∨
      req.cartItems = .arr [] ∨ req.siteLocation = .undefined) :
    (createBooking db freshId now dbAddOk gu sm req).resp.status = 400 ∧
    (createBooking db freshId now dbAddOk gu sm req).db = db ∧
    (createBooking db freshId now dbAddOk gu sm req).calls = [] := by
  have hinv : bookingInvalid req = true := by
    rcases h with h | h | h | h <;>
      simp [bookingInvalid, h, JSVal.truthy, JSVal.lengthProp]
  refine ⟨?_, ?_, ?_⟩ <;> simp [createBooking, hinv]

/-- C2 witness: a request whose `siteLocation` is absent is rejected with no
side effects. -/
theorem createBooking_missing_field_400_no_effects_witness :
    (createBooking exDb "bk9" 400 true (.ok "a@b.c") (.ok ())
      { exBookingReq with siteLocation := .undefined }).resp.status = 400 ∧
    (createBooking exDb "bk9" 400 true (.ok "a@b.c") (.ok ())
      { exBookingReq with siteLocation := .undefined }).calls = [] := by
  have h := createBooking_missing_field_400_no_effects exDb "bk9" 400 true
    (.ok "a@b.c") (.ok ()) { exBookingReq with siteLocation := .undefined }
    (Or.inr (Or.inr (Or.inr rfl)))
  exact ⟨h.1, h.2.2⟩

/-- C9: every Booking document written by create-booking carries a
`paymentDetails` value: the request's own value when truthy, the empty
object `{}` when the request omits it or supplies any falsy value — never
`undefined` (an absent field). -/
theorem createBooking_paymentDetails_present (db : Database)
    (freshId : String) (now : Nat) (gu : Except String String)
    (sm : Except String Unit) (req : BookingReq)
    (hvalid : bookingInvalid req = false) :
    (createBooking db freshId now true gu sm req).db.bookings =
      db.bookings ++ [(freshId, bookingDocOf req now)] ∧
    (bookingDocOf req now).paymentDetails =
      (if req.paymentDetails.truthy then req.paymentDetails else .obj []) ∧
    (req.paymentDetails.truthy = false →
      (bookingDocOf req now).paymentDetails = .obj []) ∧
    (bookingDocOf req now).paymentDetails ≠ .undefined := by
  refine ⟨?_, rfl, ?_, ?_⟩
  · simp [createBooking, hvalid]
  · intro h
    simp [bookingDocOf, h]
  · by_cases h : req.paymentDetails.truthy
    · simp only [bookingDocOf, h, if_true]
      intro hu
      rw [hu] at h
      exact absurd h (by simp [JSVal.truthy])
    · simp [bookingDocOf, h]

/-- C9 witness: the concrete request omits `paymentDetails`, and the stored
document carries the empty object. -/
theorem createBooking_paymentDetails_present_witness :
    (createBooking exDb "bk9" 400 true (.ok "a@b.c") (.ok ())
      exBookingReq).db.bookings =
      exDb.bookings ++ [("bk9", bookingDocOf exBookingReq 400)] ∧
    (bookingDocOf exBookingReq 400).paymentDetails = .obj [] := by
  have h := createBooking_paymentDetails_present exDb "bk9" 400
    (.ok "a@b.c") (.ok ()) exBookingReq (by decide)
  exact ⟨h.1, h.2.2.1 rfl⟩

/-- A missing booking id makes the status update fail, and conversely. -/
theorem cancelInBookings_eq_none (bs : List (String × BookingDoc)) (id : String) :
    cancelInBookings bs id = none ↔ bs.lookup id = none := by
  induction bs with
  | nil => simp [cancelInBookings, List.lookup]
  | cons hd tl ih =>
    obtain ⟨i, b⟩ := hd
    by_cases h : i = id
    · subst h
      simp [cancelInBookings, List.lookup]
    · have hne : (id == i) = false := beq_eq_false_iff_ne.mpr (Ne.symm h)
      simp only [cancelInBookings, if_neg h, List.lookup, hne]
      rw [← ih]
      cases hc : cancelInBookings tl id <;> simp [hc]

/-- Updating the status leaves every entry's key in place and rewrites the
looked-up document to its cancelled form. -/
theorem cancelInBookings_lookup (bs : List (String × BookingDoc)) (id : String)
    (b : BookingDoc) (h : bs.lookup id = some b) :
    ∃ bs', cancelInBookings bs id = some bs' ∧
      bs'.lookup id = some { b with status := "Cancelled" } := by
  induction bs with
  | nil => simp [List.lookup] at h
  | cons hd tl ih =>
    obtain ⟨i, d⟩ := hd
    by_cases hi : i = id
    · subst hi
      simp only [List.lookup, beq_self_eq_true] at h
      obtain rfl : d = b := by simpa using h
      refine ⟨(i, { d with status := "Cancelled" }) :: tl, ?_, ?_⟩
      · simp [cancelInBookings]
      · simp [List.lookup]
    · have hne : (id == i) = false := beq_eq_false_iff_ne.mpr (Ne.symm hi)
      simp only [List.lookup, hne] at h
      obtain ⟨tl', htl, hlook⟩ := ih h
      refine ⟨(i, d) :: tl', ?_, ?_⟩
      · simp [cancelInBookings, hi, htl]
      · simp [List.lookup, hne, hlook]

/-- Cancelling is idempotent at the level of the raw status update. -/
theorem cancelInBookings_idem (bs bs' : List (String × BookingDoc)) (id : String)
    (h : cancelInBookings bs id = some bs') :
    cancelInBookings bs' id = some bs' := by
  induction bs generalizing bs' with
  | nil => simp [cancelInBookings] at h
  | cons hd tl ih =>
    obtain ⟨i, b⟩ := hd
    by_cases hi : i = id
    · subst hi
      simp only [cancelInBookings, if_pos rfl] at h
      obtain rfl := Option.some_inj.mp h
      simp [cancelInBookings]
    · simp only [cancelInBookings, if_neg hi] at h
      cases htl : cancelInBookings tl id with
      | none => rw [htl] at h; simp at h
      | some tl' =>
        rw [htl] at h
        obtain rfl := Option.some_inj.mp (by simpa using h)
        simp [cancelInBookings, hi, ih tl' htl]

/-- C6: cancelling a booking id that exists — whatever the booking's prior
status — answers 200 and rewrites exactly that booking's `status` to
`"Cancelled"`, so a second cancel reproduces the same database state;
cancelling an id with no booking issues the update anyway (no existence
check), which the storage capability rejects, and the handler answers 500
(not 404) with the database unchanged. -/
theorem cancelBooking_cancels_idempotently (db : Database) (id : String) :
    (∀ b, db.bookings.lookup id = some b →
      (cancelBooking db id).resp.status = 200 ∧
      (cancelBooking db id).db.bookings.lookup id =
        some { b with status := "Cancelled" }) ∧
    (db.bookings.lookup id = none →
      (cancelBooking db id).resp.status = 500 ∧ (cancelBooking db id).db = db) ∧
    (cancelBooking (cancelBooking db id).db id).db = (cancelBooking db id).db ∧
    (cancelBooking db id).calls = [.dbUpdate "bookings"] := by
  refine ⟨?_, ?_, ?_, ?_⟩
  · intro b hb
    obtain ⟨bs', hbs, hlook⟩ := cancelInBookings_lookup db.bookings id b hb
    simp [cancelBooking, hbs, hlook]
  · intro hnone
    rw [← cancelInBookings_eq_none] at hnone
    simp [cancelBooking, hnone]
  · cases hc : cancelInBookings db.bookings id with
    | some bs' =>
      have h2 := cancelInBookings_idem db.bookings bs' id hc
      simp [cancelBooking, hc, h2]
    | none =>
      simp [cancelBooking, hc]
  · cases hc : cancelInBookings db.bookings id with
    | some bs' => simp [cancelBooking, hc]
    | none => simp [cancelBooking, hc]

/-- C6 witness: the theorem instantiated at the concrete database — `"b3"`
exists (already cancelled) and cancels to 200, `"zz"` does not exist and
yields 500 with the state unchanged. -/
theorem cancelBooking_cancels_idempotently_witness :
    (cancelBooking exDb "b3").resp.status = 200 ∧
    (cancelBooking exDb "b3").db.bookings.lookup "b3" =
      some { exBooking3 with status := "Cancelled" } ∧
    (cancelBooking exDb "zz").resp.status = 500 ∧
    (cancelBooking exDb "zz").db = exDb := by
  have h1 := (cancelBooking_cancels_idempotently exDb "b3").1 exBooking3 rfl
  have h2 := (cancelBooking_cancels_idempotently exDb "zz").2.1 rfl
  exact ⟨h1.1, h1.2, h2.1, h2.2⟩

/-- C8: `GET /api/my-bookings/:userId` answers 200 with exactly the bookings
whose `clientId` equals the requested user id (as a multiset: the result is
a permutation of the filtered collection), arranged newest first (sorted by
descending `bookingDate`); when nothing matches, the body is the empty
array. -/
theorem myBookings_filters_and_sorts_desc (db : Database) (userId : String) :
    (myBookings db userId).status = 200 ∧
    List.Perm (myBookings db userId).bookings
      (db.bookings.filter (fun p => p.2.clientId.eqStr userId)) ∧
    List.Sorted newestFirst (myBookings db userId).bookings ∧
    (db.bookings.filter (fun p => p.2.clientId.eqStr userId) = [] →
      (myBookings db userId).bookings = []) := by
  by_cases h : (db.bookings.filter (fun p => p.2.clientId.eqStr userId)).isEmpty
  · have hnil := List.isEmpty_iff.mp h
    refine ⟨?_, ?_, ?_, ?_⟩ <;> simp [myBookings, h, hnil]
  · refine ⟨?_, ?_, ?_, ?_⟩
    · simp [myBookings, h]
    · simpa [myBookings, h] using
        List.perm_insertionSort newestFirst
          (db.bookings.filter (fun p => p.2.clientId.eqStr userId))
    · simpa [myBookings, h] using
        List.sorted_insertionSort newestFirst
          (db.bookings.filter (fun p => p.2.clientId.eqStr userId))
    · intro hnil
      exact absurd (List.isEmpty_iff.mpr hnil) h

/-- C8 witness: on the concrete database, `"user1"` receives its two
bookings newest (date 300) first, and a user with no bookings receives the
empty array, both with status 200. -/
theorem myBookings_filters_and_sorts_desc_witness :
    (myBookings exDb "user1").status = 200 ∧
    List.Sorted newestFirst (myBookings exDb "user1").bookings ∧
    (myBookings exDb "nobody").bookings = [] := by
  refine ⟨(myBookings_filters_and_sorts_desc exDb "user1").1,
    (myBookings_filters_and_sorts_desc exDb "user1").2.2.1,
    (myBookings_filters_and_sorts_desc exDb "nobody").2.2.2 rfl⟩

/-- Any amount the check accepts reaches the payment capability exactly
once, carrying the paise double the program computes, currency INR and the
timestamped receipt. -/
theorem createOrder_call_of_valid (pay : Except RzpError JSVal) (nowMs : Nat)
    (amount : JSVal) (h : orderAmountInvalid amount = false) :
    (createOrder pay nowMs amount).calls =
      [.payCreate (amountInPaise amount) "INR"
        ("receipt_order_" ++ toString nowMs)] := by
  cases pay with
  | error e => simp [createOrder, h]
  | ok order => by_cases ht : order.truthy <;> simp [createOrder, h, ht]

/-- A base-2 logarithm is pinned by its two defining inequalities. -/
theorem int_log2_eq {r : ℚ} {e : ℤ} (hr : 0 < r)
    (h1 : (2 : ℚ) ^ e ≤ r) (h2 : r < (2 : ℚ) ^ (e + 1)) :
    Int.log 2 r = e := by
  have hc : ((2 : ℕ) : ℚ) = (2 : ℚ) := by norm_num
  have hl := (Int.zpow_le_iff_le_log one_lt_two hr).mp (by rw [hc] ; exact h1)
  have hu := (Int.lt_zpow_iff_log_lt one_lt_two hr).mp (by rw [hc] ; exact h2)
  omega

/-- Nearest-even rounding of an integer is that integer. -/
theorem roundNearestEvenQ_intCast (n : ℤ) : roundNearestEvenQ (n : ℚ) = n := by
  unfold roundNearestEvenQ
  rw [Int.floor_intCast]
  norm_num

/-- Nearest-even rounding below the halfway point rounds down. -/
theorem roundNearestEvenQ_of_lt_half {x : ℚ} {f : ℤ} (hf : ⌊x⌋ = f)
    (h : x - f < 1 / 2) : roundNearestEvenQ x = f := by
  unfold roundNearestEvenQ
  rw [hf, if_pos h]

/-- Nearest-even rounding above the halfway point rounds up. -/
theorem roundNearestEvenQ_of_half_lt {x : ℚ} {f : ℤ} (hf : ⌊x⌋ = f)
    (h : 1 / 2 < x - f) : roundNearestEvenQ x = f + 1 := by
  unfold roundNearestEvenQ
  rw [hf, if_neg (by linarith), if_pos h]

/-- Evaluation rule for `roundF64` on a positive value in the normal range:
supplying the exponent, the rounded significand and the resulting value
pins the rounded double. -/
theorem roundF64_eq_finite {q v : ℚ} {e m : ℤ} (hq : 0 < q)
    (hlog : Int.log 2 q = e) (he : -1022 ≤ e)
    (hm : roundNearestEvenQ (q * 2 ^ (52 - e)) = m)
    (hv : (m : ℚ) * 2 ^ (e - 52) = v)
    (hof : v < (2 : ℚ) ^ (1024 : ℤ)) :
    roundF64 q = .finite v := by
  simp only [roundF64]
  rw [if_neg hq.ne', abs_of_pos hq, hlog, max_eq_left he, hm, hv,
    if_neg (not_le.mpr hof), if_pos hq]

/-- Evaluation rule for `roundF64` overflowing to infinity. -/
theorem roundF64_eq_inf {q : ℚ} {e m : ℤ} (hq : 0 < q)
    (hlog : Int.log 2 q = e) (he : -1022 ≤ e)
    (hm : roundNearestEvenQ (q * 2 ^ (52 - e)) = m)
    (hof : (2 : ℚ) ^ (1024 : ℤ) ≤ (m : ℚ) * 2 ^ (e - 52)) :
    roundF64 q = .inf := by
  simp only [roundF64]
  rw [if_neg hq.ne', abs_of_pos hq, hlog, max_eq_left he, hm, if_pos hof,
    if_pos hq]

/-- The paise of a finite amount whose double product is known. -/
theorem amountInPaise_num_of_finite {q v : ℚ}
    (h : roundF64 (q * 100) = .finite v) :
    amountInPaise (.num q) = .finite (jsRound v : ℚ) := by
  unfold amountInPaise
  simp only []
  rw [h]

/-- The paise of a finite amount whose double product overflows. -/
theorem amountInPaise_num_of_inf {q : ℚ} (h : roundF64 (q * 100) = .inf) :
    amountInPaise (.num q) = .inf := by
  unfold amountInPaise
  simp only []
  rw [h]

/-- The integer amount 10 reaches the capability as exactly 1000 paise (the
product 1000 is exactly representable). -/
theorem amountInPaise_ten : amountInPaise (.num 10) = .finite 1000 := by
  have hx : (10 : ℚ) * 100 = 1000 := by norm_num
  have hlog : Int.log 2 (1000 : ℚ) = 9 :=
    int_log2_eq (by norm_num) (by norm_num) (by norm_num)
  have hm : roundNearestEvenQ ((1000 : ℚ) * 2 ^ ((52 : ℤ) - 9)) =
      8796093022208000 := by
    have h : (1000 : ℚ) * 2 ^ ((52 : ℤ) - 9) =
        ((8796093022208000 : ℤ) : ℚ) := by norm_num
    rw [h, roundNearestEvenQ_intCast]
  have hround : roundF64 ((10 : ℚ) * 100) = .finite 1000 := by
    rw [hx]
    exact roundF64_eq_finite (by norm_num) hlog (by norm_num) hm
      (by norm_num) (by norm_num)
  have hjs : jsRound (1000 : ℚ) = 1000 := by
    rw [jsRound, Int.floor_eq_iff] ; norm_num
  rw [amountInPaise_num_of_finite hround, hjs]
  norm_num

/-- The double of the literal 10.005 reaches the capability as 1001 paise:
its exact value times 100 is `140807857099505675 / 2^47 ≈ 1000.5000000000001`,
whose nearest double `8800491068719105 / 2^43` rounds to 1001 — the double
computation agrees with exact rounding at this boundary. -/
theorem amountInPaise_double10005 :
    amountInPaise (.num double10005) = .finite 1001 := by
  have hx : double10005 * 100 = 140807857099505675 / 2 ^ 47 := by
    unfold double10005 ; norm_num
  have harg : (140807857099505675 / 2 ^ 47 : ℚ) * 2 ^ ((52 : ℤ) - 9) =
      140807857099505675 / 16 := by norm_num
  have hfloor : ⌊(140807857099505675 / 16 : ℚ)⌋ = 8800491068719104 := by
    rw [Int.floor_eq_iff] ; norm_num
  have hm : roundNearestEvenQ
      ((140807857099505675 / 2 ^ 47 : ℚ) * 2 ^ ((52 : ℤ) - 9)) =
      8800491068719105 := by
    rw [harg]
    have h := roundNearestEvenQ_of_half_lt hfloor (by norm_num)
    omega
  have hlog : Int.log 2 (140807857099505675 / 2 ^ 47 : ℚ) = 9 :=
    int_log2_eq (by norm_num) (by norm_num) (by norm_num)
  have hround : roundF64 (double10005 * 100) =
      .finite (8800491068719105 / 8796093022208) := by
    rw [hx]
    exact roundF64_eq_finite (by norm_num) hlog (by norm_num) hm
      (by norm_num) (by norm_num)
  have hjs : jsRound (8800491068719105 / 8796093022208 : ℚ) = 1001 := by
    rw [jsRound, Int.floor_eq_iff] ; norm_num
  rw [amountInPaise_num_of_finite hround, hjs]
  norm_num

/-- The double of the literal 1.015 reaches the capability as 101 paise:
the double product is `7142427534032895 / 2^46 ≈ 101.49999999999999`, which
`Math.round` takes to 101 — though exact rounding of `1.015 * 100 = 101.5`
gives 102. -/
theorem amountInPaise_double1015 :
    amountInPaise (.num double1015) = .finite 101 := by
  have hx : double1015 * 100 = 114278840544526325 / 2 ^ 50 := by
    unfold double1015 ; norm_num
  have harg : (114278840544526325 / 2 ^ 50 : ℚ) * 2 ^ ((52 : ℤ) - 6) =
      114278840544526325 / 16 := by norm_num
  have hfloor : ⌊(114278840544526325 / 16 : ℚ)⌋ = 7142427534032895 := by
    rw [Int.floor_eq_iff] ; norm_num
  have hm : roundNearestEvenQ
      ((114278840544526325 / 2 ^ 50 : ℚ) * 2 ^ ((52 : ℤ) - 6)) =
      7142427534032895 := by
    rw [harg]
    exact roundNearestEvenQ_of_lt_half hfloor (by norm_num)
  have hlog : Int.log 2 (114278840544526325 / 2 ^ 50 : ℚ) = 6 :=
    int_log2_eq (by norm_num) (by norm_num) (by norm_num)
  have hround : roundF64 (double1015 * 100) =
      .finite (7142427534032895 / 70368744177664) := by
    rw [hx]
    exact roundF64_eq_finite (by norm_num) hlog (by norm_num) hm
      (by norm_num) (by norm_num)
  have hjs : jsRound (7142427534032895 / 70368744177664 : ℚ) = 101 := by
    rw [jsRound, Int.floor_eq_iff] ; norm_num
  rw [amountInPaise_num_of_finite hround, hjs]
  norm_num

/-- The double of the literal 1e308 passes validation, but its product with
100 overflows binary64: the capability receives an infinite paise amount. -/
theorem amountInPaise_double1e308 :
    amountInPaise (.num double1e308) = .inf := by
  have hx : double1e308 * 100 = (100 : ℚ) * double1e308 := by ring
  have harg : ((100 : ℚ) * double1e308) * 2 ^ ((52 : ℤ) - 1029) =
      ((7828782656285050 : ℤ) : ℚ) := by
    unfold double1e308 ; norm_num
  have hm : roundNearestEvenQ
      (((100 : ℚ) * double1e308) * 2 ^ ((52 : ℤ) - 1029)) =
      7828782656285050 := by
    rw [harg, roundNearestEvenQ_intCast]
  have hlog : Int.log 2 ((100 : ℚ) * double1e308) = 1029 := by
    refine int_log2_eq ?_ ?_ ?_ <;> unfold double1e308 <;> norm_num
  have hround : roundF64 (double1e308 * 100) = .inf := by
    rw [hx]
    refine roundF64_eq_inf ?_ hlog (by norm_num) hm (by norm_num)
    unfold double1e308 ; norm_num
  exact amountInPaise_num_of_inf hround

/-- C3 counterexample: the claim fails on the code at the concrete input
`Infinity` — deliverable by `express.json()`, since `JSON.parse` turns an
overflowing literal such as `1e999` into `Infinity`.  `Infinity` is not a
finite number at least 1, yet the check `typeof amount !== 'number' ||
amount < 1 || isNaN(amount)` accepts it (`typeof Infinity === 'number'`,
`Infinity < 1` is false, `isNaN(Infinity)` is false), so instead of the
claimed 400 with no capability call the handler answers 200 and invokes the
payment capability with an infinite paise amount.  The rounding conjunct
fails too: the accepted double of `1e308` overflows to an infinite paise
amount rather than any `round(amount * 100)` integer, and the double of
`1.015` produces 101 paise where exact rounding of `1.015 * 100 = 101.5`
gives 102. -/
theorem createOrder_claim_counterexample :
    orderAmountInvalid .inf = false ∧
    (createOrder (.ok (.obj [("id", .str "o1")])) 7 .inf).resp.status = 200 ∧
    (createOrder (.ok (.obj [("id", .str "o1")])) 7 .inf).calls =
      [.payCreate .inf "INR" ("receipt_order_" ++ toString 7)] ∧
    amountInPaise (.num double1e308) = .inf ∧
    amountInPaise (.num double1015) = .finite 101 ∧
    jsRound ((1015 : ℚ) / 1000 * 100) = 102 := by
  refine ⟨rfl, by decide, by decide, amountInPaise_double1e308,
    amountInPaise_double1015, ?_⟩
  rw [jsRound, Int.floor_eq_iff] ; norm_num

/-- C3 (amended): the create-order amount check accepts exactly the number
values at least 1 together with positive infinity — it tests `typeof`,
`< 1` and `isNaN` but not finiteness.  A rejected amount is answered 400
with no capability call.  An accepted amount reaches the payment capability
as `Math.round(amount * 100)` computed in IEEE binary64 arithmetic, which
agrees with exact rounding at the specification's boundaries — 0.5 (exactly
representable) is rejected with 400 and no call, 10 yields 1000 paise, the
double of 10.005 yields 1001 — but not universally: the double of 1.015
yields 101 where exact rounding gives 102, and the accepted doubles 1e308
and Infinity yield an infinite paise amount. -/
theorem createOrder_validates_and_rounds_as_double
    (pay : Except RzpError JSVal) (nowMs : Nat) (amount : JSVal) :
    (orderAmountInvalid amount = false ↔
      amount = .inf ∨ ∃ q : ℚ, amount = .num q ∧ 1 ≤ q) ∧
    (orderAmountInvalid amount = true →
      (createOrder pay nowMs amount).resp.status = 400 ∧
      (createOrder pay nowMs amount).calls = []) ∧
    (orderAmountInvalid amount = false →
      (createOrder pay nowMs amount).calls =
        [.payCreate (amountInPaise amount) "INR"
          ("receipt_order_" ++ toString nowMs)]) ∧
    ((createOrder pay nowMs (.num (1 / 2))).resp.status = 400 ∧
      (createOrder pay nowMs (.num (1 / 2))).calls = []) ∧
    amountInPaise (.num 10) = .finite 1000 ∧
    amountInPaise (.num double10005) = .finite 1001 ∧
    amountInPaise (.num double1015) = .finite 101 ∧
    jsRound ((1015 : ℚ) / 1000 * 100) = 102 ∧
    amountInPaise (.num double1e308) = .inf ∧
    amountInPaise .inf = .inf := by
  refine ⟨?_, ?_, fun h => createOrder_call_of_valid pay nowMs amount h,
    ?_, amountInPaise_ten, amountInPaise_double10005,
    amountInPaise_double1015, ?_, amountInPaise_double1e308, rfl⟩
  · cases amount <;>
      simp [orderAmountInvalid, JSVal.isNumberType, JSVal.ltOne,
        JSVal.isNaNVal, decide_eq_false_iff_not, not_lt]
  · intro h
    constructor <;> simp [createOrder, h]
  · have hhalf : orderAmountInvalid (.num (1 / 2)) = true := by
      simp only [orderAmountInvalid, JSVal.isNumberType, JSVal.ltOne,
        JSVal.isNaNVal, Bool.not_true, Bool.false_or, Bool.or_false,
        decide_eq_true_eq]
      norm_num
    have hrej : createOrder pay nowMs (.num (1 / 2)) =
        ⟨⟨400, .obj [("error", .str "Invalid amount for payment.")]⟩, []⟩ := by
      unfold createOrder
      rw [hhalf]
      simp
    rw [hrej]
    exact ⟨rfl, rfl⟩
  · rw [jsRound, Int.floor_eq_iff] ; norm_num

/-- C3 witness: the amended theorem instantiated at a concrete capability
outcome and timestamp; the rejection implication is discharged at the
non-number amount `"ten"` and the acceptance implication at the integer
amount 10. -/
theorem createOrder_validates_and_rounds_as_double_witness :
    (createOrder (.ok (.obj [("id", .str "o1")])) 7 (.str "ten")).resp.status = 400 ∧
    (createOrder (.ok (.obj [("id", .str "o1")])) 7 (.str "ten")).calls = [] ∧
    (createOrder (.ok (.obj [("id", .str "o1")])) 7 (.num 10)).calls =
      [.payCreate (amountInPaise (.num 10)) "INR" ("receipt_order_" ++ toString 7)] := by
  have h1 := (createOrder_validates_and_rounds_as_double
    (.ok (.obj [("id", .str "o1")])) 7 (.str "ten")).2.1 (by decide)
  have h2 := (createOrder_validates_and_rounds_as_double
    (.ok (.obj [("id", .str "o1")])) 7 (.num 10)).2.2.1 (by decide)
  exact ⟨h1.1, h1.2, h2⟩

/-- C4: once the amount is valid, a payment-capability failure is surfaced
verbatim — the response carries the Razorpay error's own (truthy) status
code and its `error` payload unchanged — and a capability success returns
the created order object unmodified with status 200. -/
theorem createOrder_error_passthrough_success_unmodified
    (nowMs : Nat) (q : ℚ) (h1 : 1 ≤ q) :
    (∀ e : RzpError, ∀ c : Nat, e.statusCode = some c → c ≠ 0 →
      (createOrder (.error e) nowMs (.num q)).resp = ⟨c, e.error⟩) ∧
    (∀ order : JSVal, order.truthy = true →
      (createOrder (.ok order) nowMs (.num q)).resp = ⟨200, order⟩) := by
  have hq : ¬(q < 1) := not_lt.mpr h1
  have hinv : orderAmountInvalid (.num q) = false := by
    simp [orderAmountInvalid, JSVal.isNumberType, JSVal.ltOne, JSVal.isNaNVal, hq]
  constructor
  · intro e c hc hc0
    simp [createOrder, hinv, hc, hc0]
  · intro order ht
    simp [createOrder, hinv, ht]

/-- C4 witness: a 502 Razorpay error at amount 10 is passed through with its
payload, and a successful order object is returned unmodified. -/
theorem createOrder_error_passthrough_success_unmodified_witness :
    (createOrder (.error ⟨some 502, .obj [("code", .str "BAD_REQUEST_ERROR")]⟩) 7
      (.num 10)).resp = ⟨502, .obj [("code", .str "BAD_REQUEST_ERROR")]⟩ ∧
    (createOrder (.ok (.obj [("id", .str "order_1")])) 7 (.num 10)).resp =
      ⟨200, .obj [("id", .str "order_1")]⟩ := by
  have h := createOrder_error_passthrough_success_unmodified 7 10 (by norm_num)
  exact ⟨h.1 ⟨some 502, .obj [("code", .str "BAD_REQUEST_ERROR")]⟩ 502 rfl
    (by decide), h.2 (.obj [("id", .str "order_1")]) rfl⟩

/-- C5: the listing-mutation routes touch only the whitelisted collections:
a `collectionName` outside `{equipment, materials, contractors}` is answered
400 by both the update and the delete route with the database untouched and
no database call issued; and any database call either route ever issues
names a whitelisted collection, so no other collection is reachable through
them. -/
theorem listingMutation_collections_restricted (db : Database)
    (c lid : String) (patch : List (String × JSVal)) :
    (c ∉ validCollections →
      (updateListing db c lid patch).resp.status = 400 ∧
      (updateListing db c lid patch).db = db ∧
      (updateListing db c lid patch).calls = [] ∧
      (deleteListing db c lid).resp.status = 400 ∧
      (deleteListing db c lid).db = db ∧
      (deleteListing db c lid).calls = []) ∧
    (∀ call ∈ (updateListing db c lid patch).calls,
      ∃ coll ∈ validCollections, call.dbCollection = some coll) ∧
    (∀ call ∈ (deleteListing db c lid).calls,
      ∃ coll ∈ validCollections, call.dbCollection = some coll) := by
  by_cases hc : validCollections.contains c
  · have hmem : c ∈ validCollections := by simpa using hc
    refine ⟨fun hnot => absurd hmem hnot, ?_, ?_⟩
    · intro call hcall
      refine ⟨c, hmem, ?_⟩
      rcases hud : updateDocIn (db.listColl c) lid patch with _ | docs <;>
        · rw [updateListing, if_pos hc, hud] at hcall
          simp only [List.mem_singleton] at hcall
          rw [hcall]
          rfl
    · intro call hcall
      refine ⟨c, hmem, ?_⟩
      rw [deleteListing, if_pos hc] at hcall
      simp only [List.mem_singleton] at hcall
      rw [hcall]
      rfl
  · have hmem' : c ∉ validCollections := by simpa using hc
    refine ⟨fun _ => ?_, ?_, ?_⟩
    · refine ⟨?_, ?_, ?_, ?_, ?_, ?_⟩ <;>
        simp [updateListing, deleteListing, hmem']
    · intro call hcall
      rw [updateListing, if_neg hc] at hcall
      simp at hcall
    · intro call hcall
      rw [deleteListing, if_neg hc] at hcall
      simp at hcall

/-- C5 witness: with `collectionName = "users"` both routes answer 400, make
no call and leave the state unchanged. -/
theorem listingMutation_collections_restricted_witness :
    (updateListing exDb "users" "u1" [("role", .str "admin")]).resp.status = 400 ∧
    (updateListing exDb "users" "u1" [("role", .str "admin")]).calls = [] ∧
    (deleteListing exDb "users" "u1").resp.status = 400 ∧
    (deleteListing exDb "users" "u1").calls = [] := by
  have h := (listingMutation_collections_restricted exDb "users" "u1"
    [("role", .str "admin")]).1 (by decide)
  exact ⟨h.1, h.2.2.1, h.2.2.2.1, h.2.2.2.2.2⟩

/-- C7: a listing created through add-listing with `listingType = "Material"`
and the required fields present lands in the `materials` collection, and the
subsequent `GET /api/materials` response contains exactly the old documents
followed by the new one, whose `specs` field is the submitted `description`
and whose `pricePerUnit` field is `Number(price)`. -/
theorem addListing_material_roundtrip (db : Database) (freshId : String)
    (req : ListingReq) (htype : req.listingType = .str "Material")
    (hvalid : listingInvalid req = false) :
    (addListing db freshId req).resp.status = 201 ∧
    (getMaterials (addListing db freshId req).db).status = 200 ∧
    (getMaterials (addListing db freshId req).db).body =
      .arr (db.materials.map (fun p => withIdField p.1 p.2) ++
        [withIdField freshId (materialDataOf req)]) ∧
    (withIdField freshId (materialDataOf req)).get "specs" = req.description ∧
    (withIdField freshId (materialDataOf req)).get "pricePerUnit" =
      jsToNumber req.price ∧
    (withIdField freshId (materialDataOf req)).get "id" = .str freshId := by
  have hne : JSVal.eqStr (.str "Material") "Equipment" = false := by decide
  have heq : JSVal.eqStr (.str "Material") "Material" = true := by decide
  refine ⟨?_, rfl, ?_, rfl, rfl, rfl⟩
  · simp [addListing, hvalid, htype, hne, heq]
  · simp [addListing, hvalid, htype, hne, heq, getMaterials]

/-- C7 witness: a concrete Material listing with price 25 and description
`"fine sand"` round-trips through the materials collection. -/
theorem addListing_material_roundtrip_witness :
    (addListing exDb "m2"
      { listingType := .str "Material", name := .str "Sand", description := .str "fine sand",
        price := .num 25, imageUrl := .str "u", location := .undefined,
        merchantId := .str "mch1", rateType := .undefined,
        specialization := .undefined, unit := .str "kg" }).resp.status = 201 ∧
    (withIdField "m2" (materialDataOf
      { listingType := .str "Material", name := .str "Sand", description := .str "fine sand",
        price := .num 25, imageUrl := .str "u", location := .undefined,
        merchantId := .str "mch1", rateType := .undefined,
        specialization := .undefined, unit := .str "kg" })).get "specs" = .str "fine sand" := by
  have h := addListing_material_roundtrip exDb "m2"
    { listingType := .str "Material", name := .str "Sand", description := .str "fine sand",
      price := .num 25, imageUrl := .str "u", location := .undefined,
      merchantId := .str "mch1", rateType := .undefined,
      specialization := .undefined, unit := .str "kg" } rfl (by decide)
  exact ⟨h.1, h.2.2.2.1⟩

/-- C10: add-listing rejects with 400, leaving the database untouched and
calling no capability, whenever any of `listingType`, `name`, `price`,
`merchantId` is falsy — not merely absent: a present `price: 0` or
`name: ""` is rejected the same way. -/
theorem addListing_rejects_falsy_required (db : Database) (freshId : String)
    (req : ListingReq)
    (h : req.listingType.truthy = false ∨ req.name.truthy = false ∨
      req.price.truthy = false ∨ req.merchantId.truthy = false) :
    (addListing db freshId req).resp.status = 400 ∧
    (addListing db freshId req).db = db ∧
    (addListing db freshId req).calls = [] := by
  have hinv : listingInvalid req = true := by
    rcases h with h | h | h | h <;> simp [listingInvalid, h]
  refine ⟨?_, ?_, ?_⟩ <;> simp [addListing, hinv]

/-- C10 witness: the theorem applied to a request with `price: 0` and to one
with `name: ""`, both otherwise complete. -/
theorem addListing_rejects_falsy_required_witness :
    (addListing exDb "x1"
      { listingType := .str "Material", name := .str "Sand", description := .str "d",
        price := .num 0, imageUrl := .undefined, location := .undefined,
        merchantId := .str "mch1", rateType := .undefined,
        specialization := .undefined, unit := .undefined }).resp.status = 400 ∧
    (addListing exDb "x1"
      { listingType := .str "Equipment", name := .str "", description := .str "d",
        price := .num 25, imageUrl := .undefined, location := .undefined,
        merchantId := .str "mch1", rateType := .undefined,
        specialization := .undefined, unit := .undefined }).calls = [] := by
  have h1 := addListing_rejects_falsy_required exDb "x1"
    { listingType := .str "Material", name := .str "Sand", description := .str "d",
      price := .num 0, imageUrl := .undefined, location := .undefined,
      merchantId := .str "mch1", rateType := .undefined,
      specialization := .undefined, unit := .undefined }
    (Or.inr (Or.inr (Or.inl (by decide))))
  have h2 := addListing_rejects_falsy_required exDb "x1"
    { listingType := .str "Equipment", name := .str "", description := .str "d",
      price := .num 25, imageUrl := .undefined, location := .undefined,
      merchantId := .str "mch1", rateType := .undefined,
      specialization := .undefined, unit := .undefined }
    (Or.inr (Or.inl (by decide)))
  exact ⟨h1.1, h2.2.2⟩
